import Mathlib

/-!
Shallow embedding of the Ethiopia financial-inclusion dashboard
(src/dashboard/utils.py and src/dashboard/app.py).

Tables are lists of row structures.  Dates are modelled as a pair of a
year and an ordinal within the year, ordered lexicographically; numeric
cell values are modelled as integers (the claims only compare values and
test them against zero, so the real-number refinement is irrelevant);
a missing cell is an Option none.  A raw (unparsed) date cell is either
missing, an unparseable string, or a valid date; pandas to_datetime with
coerce semantics is the parseCell function below.  File access in the
load functions is modelled by an environment that records, for each input
file, whether it is absent, malformed (reading raises), or readable with
given content; the try/except wrapper of each loader is then an explicit
match.  Streamlit warning/error calls are modelled as returned messages.
Python numeric truthiness (None and 0 are falsy) is pyTruthy.
Decimal formatting (the .1f format strings) is abbreviated to toString.
-/

/-- Numeric cell values (model of the real-valued cells). -/
abbrev Value := Int

/-- A calendar date: year and ordinal within the year, ordered lexicographically. -/
structure Date where
  year : Int
  ord : Nat
deriving DecidableEq, Repr

/-- Lexicographic order on dates. -/
def Date.le (a b : Date) : Prop :=
  a.year < b.year ∨ (a.year = b.year ∧ a.ord ≤ b.ord)

instance : DecidableRel Date.le := fun a b =>
  decidable_of_iff (a.year < b.year ∨ (a.year = b.year ∧ a.ord ≤ b.ord)) Iff.rfl

theorem Date.le_refl (a : Date) : Date.le a a := by
  unfold Date.le; omega

theorem Date.le_total (a b : Date) : Date.le a b ∨ Date.le b a := by
  unfold Date.le; omega

theorem Date.le_trans {a b c : Date} (h1 : Date.le a b) (h2 : Date.le b c) :
    Date.le a c := by
  unfold Date.le at *; omega

theorem Date.le_antisymm {a b : Date} (h1 : Date.le a b) (h2 : Date.le b a) :
    a = b := by
  cases a; cases b
  unfold Date.le at *
  simp_all only [Date.mk.injEq]
  omega

/-- A raw date cell before parsing: missing (NaN), an unparseable string,
or a well-formed date. -/
inductive DateCell where
  | missing
  | unparseable (s : String)
  | valid (d : Date)
deriving DecidableEq, Repr

/-- pandas to_datetime with coerce error semantics on one cell:
unparseable and missing cells both become missing (NaT). -/
def parseCell : DateCell → Option Date
  | .missing => none
  | .unparseable _ => none
  | .valid d => some d

/-- Writing a parsed date back into a raw cell (a parsed column holds
either a date or NaT, never an unparseable string). -/
def cellOfParsed : Option Date → DateCell
  | some d => .valid d
  | none => .missing

/-- A row of the unified table after load (observation_date already parsed
by load_unified_data; event_date still raw, parsed only in get_events). -/
structure URow where
  record_type : String
  indicator_code : String
  indicator : String
  category : String
  observation_date : Option Date
  event_date : DateCell
  value_numeric : Option Value
deriving DecidableEq, Repr

/-- A row of the unified table as read from disk, before date parsing. -/
structure RawURow where
  record_type : String
  indicator_code : String
  indicator : String
  category : String
  observation_date : DateCell
  event_date : DateCell
  value_numeric : Option Value
deriving DecidableEq, Repr

/-- The date-parsing pass of load_unified_data on one row: only the
observation_date column is parsed. -/
def parseURow (r : RawURow) : URow :=
  { record_type := r.record_type
    indicator_code := r.indicator_code
    indicator := r.indicator
    category := r.category
    observation_date := parseCell r.observation_date
    event_date := r.event_date
    value_numeric := r.value_numeric }

/-- A row of the long-form forecast table. -/
structure FRow where
  indicator_code : String
  year : Int
  scenario : String
  forecast_value : Value
deriving DecidableEq, Repr

/-- A row of the wide-form forecast table (lower and upper bounds). -/
structure WRow where
  indicator_code : String
  year : Int
  lower : Value
  upper : Value
deriving DecidableEq, Repr

/-- Event-feature table content (time index with effect columns). -/
abbrev EFTable := List (Date × List Value)

/-- Event-indicator matrix content (two-level key with weight columns). -/
abbrev EMTable := List ((String × String) × List Value)

/-- A streamlit user-visible message emitted during a load. -/
inductive Msg where
  | warning (s : String)
  | error (s : String)
deriving DecidableEq, Repr

/-- The state of one input file: absent, present but raising on read,
or readable with the given content. -/
inductive FileState (α : Type) where
  | absentF
  | malformed
  | ok (content : α)
deriving DecidableEq, Repr

/-- The file-system environment the four loaders read from. -/
structure Env where
  enriched : FileState (List RawURow)
  excelMain : FileState (List RawURow)
  excelImpact : FileState (List RawURow)
  eventFeatures : FileState EFTable
  eventMatrix : FileState EMTable
  forecastLong : FileState (List FRow)
  forecastWide : FileState (List WRow)
deriving DecidableEq, Repr

/-- utils.load_unified_data: prefer the enriched CSV (extracting the
impact_link rows from it), else fall back to the Excel workbook whose
Impact sheet is read under an inner bare except that yields an empty
table; any escaping failure is caught and converted to two empty tables
plus an error message.  The date-parsing pass applies to the main table. -/
def load_unified_data (env : Env) : (List URow × List RawURow) × List Msg :=
  match env.enriched with
  | .ok rows =>
      let df_impact := rows.filter (fun r => r.record_type == "impact_link")
      ((rows.map parseURow, df_impact), [])
  | .malformed =>
      (([], []), [Msg.error "Error loading unified data"])
  | .absentF =>
      match env.excelMain with
      | .ok rows =>
          let df_impact :=
            match env.excelImpact with
            | .ok irows => irows
            | _ => []
          ((rows.map parseURow, df_impact), [])
      | _ =>
          (([], []), [Msg.error "Error loading unified data"])

/-- utils.load_event_features: warn and return absent when the file is
missing; catch a raising read and return absent with an error. -/
def load_event_features (env : Env) : Option EFTable × List Msg :=
  match env.eventFeatures with
  | .absentF => (none, [Msg.warning "Event features not found. Run Task 3 notebook first."])
  | .malformed => (none, [Msg.error "Error loading event features"])
  | .ok t => (some t, [])

/-- utils.load_event_matrix: same shape as load_event_features. -/
def load_event_matrix (env : Env) : Option EMTable × List Msg :=
  match env.eventMatrix with
  | .absentF => (none, [Msg.warning "Event matrix not found. Run Task 3 notebook first."])
  | .malformed => (none, [Msg.error "Error loading event matrix"])
  | .ok t => (some t, [])

/-- utils.load_forecasts: warn and return (absent, absent) when the long
file is missing; the wide file is read only when it exists, and a raising
read of either file is caught by the one try/except, yielding
(absent, absent) plus an error message. -/
def load_forecasts (env : Env) :
    (Option (List FRow) × Option (List WRow)) × List Msg :=
  match env.forecastLong with
  | .absentF => ((none, none), [Msg.warning "Forecast data not found. Run Task 4 notebook first."])
  | .malformed => ((none, none), [Msg.error "Error loading forecasts"])
  | .ok long =>
      match env.forecastWide with
      | .absentF => ((some long, none), [])
      | .malformed => ((none, none), [Msg.error "Error loading forecasts"])
      | .ok wide => ((some long, some wide), [])

/-- An observation row: a unified row plus the derived year column. -/
structure ObsRow extends URow where
  year : Option Int
deriving DecidableEq, Repr

/-- utils.get_observations: on an empty table return an empty table; else
filter to record_type observation and derive the year column from the
parsed observation_date (missing date gives a missing year). -/
def get_observations (df_main : List URow) : List ObsRow :=
  if df_main.isEmpty then []
  else
    (df_main.filter (fun r => r.record_type == "observation")).map
      (fun r => { toURow := r, year := r.observation_date.map (·.year) })

/-- An event row: a unified row (with its date column overwritten by the
parsed values) plus the derived event_date_parsed column. -/
structure EventRow extends URow where
  event_date_parsed : Option Date
deriving DecidableEq, Repr

/-- The event rows of the unified table. -/
def eventsOf (df_main : List URow) : List URow :=
  df_main.filter (fun r => r.record_type == "event")

/-- The date-column choice of get_events: event_date is used for all event
rows when any event row has a non-missing event_date. -/
def eventsDateFlag (df_main : List URow) : Bool :=
  (eventsOf df_main).any (fun r => !(r.event_date == DateCell.missing))

/-- utils.get_events: on an empty table return an empty table; else filter
to record_type event, choose the date column once for the whole table
(event_date when any event row has one non-missing, else
observation_date), overwrite that column with its parsed values and
store them as event_date_parsed. -/
def get_events (df_main : List URow) : List EventRow :=
  if df_main.isEmpty then []
  else if eventsDateFlag df_main then
    (eventsOf df_main).map (fun r =>
      { toURow := { r with event_date := cellOfParsed (parseCell r.event_date) }
        event_date_parsed := parseCell r.event_date })
  else
    (eventsOf df_main).map (fun r =>
      { toURow := r, event_date_parsed := r.observation_date })

/-- Sort key of an observation row (rows reaching the sort all carry a
date, so the default is never consulted). -/
def seriesKey (r : ObsRow) : Date :=
  r.observation_date.getD ⟨0, 0⟩

/-- Row order used by the sort in get_indicator_series. -/
def obsLe (a b : ObsRow) : Prop :=
  Date.le (seriesKey a) (seriesKey b)

instance : DecidableRel obsLe := fun a b =>
  inferInstanceAs (Decidable (Date.le (seriesKey a) (seriesKey b)))

instance : IsTotal ObsRow obsLe :=
  ⟨fun a b => Date.le_total (seriesKey a) (seriesKey b)⟩

instance : IsTrans ObsRow obsLe :=
  ⟨fun _ _ _ h1 h2 => Date.le_trans h1 h2⟩

/-- utils.get_indicator_series: filter to one indicator code, drop rows
with a missing observation_date or value_numeric, sort ascending by
observation_date. -/
def get_indicator_series (observations : List ObsRow) (indicator_code : String) :
    List ObsRow :=
  if observations.isEmpty then []
  else
    let data := observations.filter (fun r => r.indicator_code == indicator_code)
    let data := data.filter (fun r => r.observation_date.isSome && r.value_numeric.isSome)
    List.insertionSort obsLe data

/-- utils.get_latest_value: the value_numeric of the last row of the
indicator series, absent when the series is empty. -/
def get_latest_value (observations : List ObsRow) (indicator_code : String) :
    Option Value :=
  match (get_indicator_series observations indicator_code).getLast? with
  | none => none
  | some r => r.value_numeric

/-- utils.get_forecast_value: absent when the table is absent or empty;
else the forecast_value of the first row matching the three keys, absent
when no row matches. -/
def get_forecast_value (forecast_df : Option (List FRow)) (indicator : String)
    (year : Int) (scenario : String) : Option Value :=
  match forecast_df with
  | none => none
  | some df =>
      if df.isEmpty then none
      else
        match df.filter (fun r =>
            r.indicator_code == indicator && r.year == year &&
            r.scenario == scenario) with
        | [] => none
        | r :: _ => some r.forecast_value

/-- Python numeric truthiness of an optional value: None and 0 are falsy. -/
def pyTruthy : Option Value → Bool
  | none => false
  | some v => v != 0

/-- Numeric rendering of a value (decimal formatting abbreviated). -/
def fmtNum (v : Value) : String := toString v

/-- A rendered KPI metric: a shown value (with an optional delta line) or
the N/A placeholder. -/
inductive MetricOut where
  | shown (label val : String) (delta : Option String)
  | na (label : String)
deriving DecidableEq, Repr

/-- app Overview KPI card for the three latest-value metrics: the value is
shown only when it is truthy, else N/A. -/
def kpiCard (label : String) (v : Option Value) : MetricOut :=
  if pyTruthy v then MetricOut.shown label (fmtNum (v.getD 0) ++ "%") none
  else MetricOut.na label

/-- app Overview fourth KPI card: the 2027 base forecast with its
gap-to-60 delta, or N/A when the looked-up value is falsy. -/
def kpiForecastCard (v : Option Value) : MetricOut :=
  if pyTruthy v then
    let fv := v.getD 0
    let target_gap := 60 - fv
    MetricOut.shown "2027 Forecast (Access)" (fmtNum fv ++ "%")
      (some (if target_gap > 0 then fmtNum (-target_gap) ++ "pp to 60% target"
             else "✓ Target met"))
  else MetricOut.na "2027 Forecast"

/-- app Overview current-state insight panel lines. -/
def insightCurrentLines (latest_access latest_mm : Option Value) (nEvents : Nat) :
    List String :=
  (if pyTruthy latest_access && pyTruthy latest_mm then
    ["- Account ownership: " ++ fmtNum (latest_access.getD 0) ++ "%",
     "- Mobile money penetration: " ++ fmtNum (latest_mm.getD 0) ++ "%",
     "- Traditional banking dominates: " ++
       fmtNum (latest_access.getD 0 - latest_mm.getD 0) ++ "pp gap"]
   else []) ++ ["- Total events tracked: " ++ toString nEvents]

/-- app Overview forecast-outlook insight panel lines. -/
def insightOutlookLines (forecast_2027 : Option Value)
    (forecast_wide : Option (List WRow)) : List String :=
  (if pyTruthy forecast_2027 then
    ["- 2027 base forecast: " ++ fmtNum (forecast_2027.getD 0) ++ "%"] ++
    (match forecast_wide with
     | some fw =>
         if fw.isEmpty then []
         else
           match fw.filter (fun r =>
               r.year == 2027 && r.indicator_code == "ACC_OWNERSHIP") with
           | [] => []
           | r :: _ =>
               ["- Uncertainty range: " ++ fmtNum r.lower ++ "% - " ++
                 fmtNum r.upper ++ "%"]
     | none => [])
   else []) ++ ["- Key drivers: Telebirr, M-Pesa, NFIS-II"]

/-- A plotly trace as far as the claims observe it: name, x and y columns,
and whether it belongs to the uncertainty-band pair of the wide table. -/
structure ChartTrace where
  name : String
  xs : List (Option Date)
  ys : List (Option Value)
  isBand : Bool
deriving DecidableEq, Repr

/-- The January-first date a forecast year is plotted at. -/
def yearDate (y : Int) : Date := ⟨y, 1⟩

/-- Row order used by sort_values on the year column of forecast tables. -/
def fRowLe (a b : FRow) : Prop := a.year ≤ b.year

instance : DecidableRel fRowLe := fun a b =>
  inferInstanceAs (Decidable (a.year ≤ b.year))

instance : IsTotal FRow fRowLe := ⟨fun a b => Int.le_total a.year b.year⟩

instance : IsTrans FRow fRowLe := ⟨fun _ _ _ h1 h2 => le_trans h1 h2⟩

/-- Year order on wide-form forecast rows. -/
def wRowLe (a b : WRow) : Prop := a.year ≤ b.year

instance : DecidableRel wRowLe := fun a b =>
  inferInstanceAs (Decidable (a.year ≤ b.year))

instance : IsTotal WRow wRowLe := ⟨fun a b => Int.le_total a.year b.year⟩

instance : IsTrans WRow wRowLe := ⟨fun _ _ _ h1 h2 => le_trans h1 h2⟩

/-- sort_values on the year column of the long-form forecast table. -/
def sortFRows (l : List FRow) : List FRow := List.insertionSort fRowLe l

/-- sort_values on the year column of the wide-form forecast table. -/
def sortWRows (l : List WRow) : List WRow := List.insertionSort wRowLe l

/-- app Overview chart, historical trace: present when the observation
table is non-empty and the ACC_OWNERSHIP series is non-empty. -/
def overviewHistTrace (observations : List ObsRow) : Option ChartTrace :=
  if observations.isEmpty then none
  else
    let acc_series := get_indicator_series observations "ACC_OWNERSHIP"
    if acc_series.isEmpty then none
    else some { name := "Historical"
                xs := acc_series.map (·.observation_date)
                ys := acc_series.map (·.value_numeric)
                isBand := false }

/-- app Overview chart, forecast trace: the long-form rows for
ACC_OWNERSHIP filtered to the sidebar scenario, sorted by year. -/
def overviewForecastTrace (observations : List ObsRow)
    (forecast_long : Option (List FRow)) (scenario_filter : String) :
    Option ChartTrace :=
  if observations.isEmpty then none
  else
    match forecast_long with
    | none => none
    | some fl =>
        let forecast_access := sortFRows (fl.filter (fun r =>
          r.indicator_code == "ACC_OWNERSHIP" && r.scenario == scenario_filter))
        if forecast_access.isEmpty then none
        else some { name := "Forecast (" ++ scenario_filter ++ ")"
                    xs := forecast_access.map (fun r => some (yearDate r.year))
                    ys := forecast_access.map (fun r => some r.forecast_value)
                    isBand := false }

/-- The observable output of the Overview page render. -/
structure OverviewOut where
  kpiAccess : MetricOut
  kpiMM : MetricOut
  kpiUsage : MetricOut
  kpiForecast : MetricOut
  insightCurrent : List String
  insightOutlook : List String
  histTrace : Option ChartTrace
  forecastTrace : Option ChartTrace
deriving DecidableEq, Repr

/-- app Overview page render (lines 95-229 of app.py). -/
def render_overview (observations : List ObsRow) (events : List EventRow)
    (forecast_long : Option (List FRow)) (forecast_wide : Option (List WRow))
    (scenario_filter : String) : OverviewOut :=
  let latest_access := get_latest_value observations "ACC_OWNERSHIP"
  let latest_mm := get_latest_value observations "ACC_MM_ACCOUNT"
  let latest_usage := get_latest_value observations "USG_DIGITAL_PAYMENT"
  let forecast_2027 := get_forecast_value forecast_long "ACC_OWNERSHIP" 2027 "base"
  { kpiAccess := kpiCard "Latest Account Ownership" latest_access
    kpiMM := kpiCard "Mobile Money Accounts" latest_mm
    kpiUsage := kpiCard "Digital Payment Usage" latest_usage
    kpiForecast := kpiForecastCard forecast_2027
    insightCurrent := insightCurrentLines latest_access latest_mm events.length
    insightOutlook := insightOutlookLines forecast_2027 forecast_wide
    histTrace := overviewHistTrace observations
    forecastTrace := overviewForecastTrace observations forecast_long scenario_filter }

/-- Order-preserving unique of a string column, keeping first occurrences
(pandas unique). -/
def uniqueAux (seen : List String) : List String → List String
  | [] => []
  | x :: xs =>
      if seen.contains x then uniqueAux seen xs
      else x :: uniqueAux (x :: seen) xs

/-- pandas unique().tolist() on a string column. -/
def uniqueStrs (l : List String) : List String := uniqueAux [] l

/-- app Forecasts chart, historical trace for the selected indicator. -/
def histTraceOf (historical : List ObsRow) : ChartTrace :=
  { name := "Historical"
    xs := historical.map (·.observation_date)
    ys := historical.map (·.value_numeric)
    isBand := false }

/-- app Forecasts chart: one trace per scenario in the fixed order base,
optimistic, pessimistic, each drawn only when its rows are non-empty. -/
def scenarioTraces (fdata : List FRow) : List ChartTrace :=
  ["base", "optimistic", "pessimistic"].filterMap (fun scen =>
    let scenario_data := sortFRows (fdata.filter (fun r => r.scenario == scen))
    if scenario_data.isEmpty then none
    else some { name := scen.capitalize
                xs := scenario_data.map (fun r => some (yearDate r.year))
                ys := scenario_data.map (fun r => some r.forecast_value)
                isBand := false })

/-- app Forecasts chart: the two uncertainty-band traces, drawn only when
the wide table is present and has rows for the selected indicator. -/
def bandTraces (ind : String) (forecast_wide : Option (List WRow)) :
    List ChartTrace :=
  match forecast_wide with
  | none => []
  | some fw =>
      let wide_data := sortWRows (fw.filter (fun r => r.indicator_code == ind))
      if wide_data.isEmpty then []
      else
        [{ name := "Upper Bound"
           xs := wide_data.map (fun r => some (yearDate r.year))
           ys := wide_data.map (fun r => some r.upper)
           isBand := true },
         { name := "Uncertainty Band"
           xs := wide_data.map (fun r => some (yearDate r.year))
           ys := wide_data.map (fun r => some r.lower)
           isBand := true }]

/-- Which table the Forecasts page data table shows. -/
inductive TableShown where
  | wideT (t : List WRow)
  | longT (t : List FRow)
  | noneT
deriving DecidableEq, Repr

/-- app Forecasts key-findings block for the account-ownership lookup:
lines shown only when the looked-up value is truthy. -/
def findingsAccessBlock (v : Option Value) : List String :=
  if pyTruthy v then
    let x := v.getD 0
    ["- **Account Ownership 2027 (base)**: " ++ fmtNum x ++ "%"] ++
    (if 60 - x > 0 then ["  - Gap to 60% target: " ++ fmtNum (60 - x) ++ "pp"]
     else ["  - ✓ On track to meet 60% target"])
  else []

/-- app Forecasts key-findings block for the digital-payment lookup. -/
def findingsUsageBlock (v : Option Value) : List String :=
  if pyTruthy v then
    ["- **Digital Payment Usage 2027 (base)**: " ++ fmtNum (v.getD 0) ++ "%"]
  else []

/-- The fixed key-drivers and risks text of the findings panel. -/
def staticFindingsLines : List String :=
  ["- Telebirr expansion (54M+ users)",
   "- M-Pesa Ethiopia + EthSwitch integration",
   "- NFIS-II policy implementation",
   "- Fayda Digital ID rollout",
   "- Survey methodology vs operator data discrepancy",
   "- Account overlap (multiple accounts per person)",
   "- Cash culture and trust barriers",
   "- Affordability constraints"]

/-- The observable output of the Forecasts page render. -/
structure ForecastsOut where
  errorShown : Bool
  traces : List ChartTrace
  table : TableShown
  download : Option (List FRow)
  findings : List String
deriving DecidableEq, Repr

/-- app Forecasts chart traces: the selectbox picks the first of the
unique indicator codes; the chart then stacks the historical trace, the
per-scenario traces and the uncertainty-band traces. -/
def forecastPageTraces (observations : List ObsRow) (fl : List FRow)
    (forecast_wide : Option (List WRow)) : List ChartTrace :=
  match (uniqueStrs (fl.map (·.indicator_code))).head? with
  | none => []
  | some ind =>
      let historical := get_indicator_series observations ind
      let fdata := fl.filter (fun r => r.indicator_code == ind)
      (if historical.isEmpty then [] else [histTraceOf historical]) ++
        scenarioTraces fdata ++ bandTraces ind forecast_wide

/-- app Forecasts page render (lines 469-611 of app.py).  The sidebar
scenario filter is in scope on this page but never read by it. -/
def render_forecasts (observations : List ObsRow)
    (forecast_long : Option (List FRow)) (forecast_wide : Option (List WRow))
    (scenario_filter : String) : ForecastsOut :=
  match forecast_long with
  | none =>
      { errorShown := true, traces := [], table := TableShown.noneT
        download := none, findings := [] }
  | some fl =>
      { errorShown := false
        traces := forecastPageTraces observations fl forecast_wide
        table := match forecast_wide with
                 | some fw => TableShown.wideT fw
                 | none => TableShown.longT fl
        download := some fl
        findings :=
          findingsAccessBlock
              (get_forecast_value (some fl) "ACC_OWNERSHIP" 2027 "base") ++
            findingsUsageBlock
              (get_forecast_value (some fl) "USG_DIGITAL_PAYMENT" 2027 "base") ++
            staticFindingsLines }

/-- Well-formed observation input: at most one row per
(indicator_code, observation_date). -/
def WellFormed (observations : List ObsRow) : Prop :=
  observations.Pairwise (fun a b =>
    ¬(a.indicator_code = b.indicator_code ∧ a.observation_date = b.observation_date))

theorem wellFormed_symm :
    ∀ {a b : ObsRow},
      (¬(a.indicator_code = b.indicator_code ∧ a.observation_date = b.observation_date)) →
      ¬(b.indicator_code = a.indicator_code ∧ b.observation_date = a.observation_date) :=
  fun h hc => h ⟨hc.1.symm, hc.2.symm⟩

theorem series_eq (observations : List ObsRow) (code : String) :
    get_indicator_series observations code =
      List.insertionSort obsLe
        ((observations.filter (fun r => r.indicator_code == code)).filter
          (fun r => r.observation_date.isSome && r.value_numeric.isSome)) := by
  unfold get_indicator_series
  by_cases h : observations.isEmpty
  · rw [if_pos h, List.isEmpty_iff.mp h]
    rfl
  · rw [if_neg h]

theorem series_perm (observations : List ObsRow) (code : String) :
    (get_indicator_series observations code).Perm
      (observations.filter (fun r =>
        r.indicator_code == code &&
        (r.observation_date.isSome && r.value_numeric.isSome))) := by
  rw [series_eq]
  refine (List.perm_insertionSort _ _).trans ?_
  rw [List.filter_filter]
  rw [List.filter_congr (fun a _ => Bool.and_comm
    (a.observation_date.isSome && a.value_numeric.isSome) (a.indicator_code == code))]

theorem series_sorted (observations : List ObsRow) (code : String) :
    (get_indicator_series observations code).Sorted obsLe := by
  rw [series_eq]
  exact List.sorted_insertionSort obsLe _

theorem mem_series {r : ObsRow} {observations : List ObsRow} {code : String} :
    r ∈ get_indicator_series observations code ↔
      r ∈ observations ∧ r.indicator_code = code ∧
        r.observation_date.isSome ∧ r.value_numeric.isSome := by
  rw [(series_perm observations code).mem_iff, List.mem_filter]
  simp [Bool.and_eq_true, beq_iff_eq, and_assoc]

theorem sorted_le_getLast :
    ∀ {L : List ObsRow}, L.Sorted obsLe → (h : L ≠ []) →
      ∀ a ∈ L, obsLe a (L.getLast h) := by
  intro L
  induction L with
  | nil => intro _ h; exact absurd rfl h
  | cons x xs ih =>
    intro hs h a ha
    cases xs with
    | nil =>
      have : a = x := by simpa using ha
      subst this
      exact Date.le_refl _
    | cons y ys =>
      rw [List.getLast_cons (by simp)]
      rcases List.mem_cons.mp ha with rfl | ha2
      · exact (List.sorted_cons.mp hs).1 _ (List.getLast_mem _)
      · exact ih (List.sorted_cons.mp hs).2 (by simp) _ ha2

/-- C1: for every observation table and indicator code,
get_indicator_series returns exactly the rows whose indicator_code equals
the code with rows missing a date or value dropped (as a multiset), the
result is sorted non-decreasing by observation_date, an absent code gives
the empty sequence, and every returned row matches the code and carries a
date and a value. -/
theorem C1_get_indicator_series_spec (observations : List ObsRow) (code : String) :
    (get_indicator_series observations code).Perm
      (observations.filter (fun r =>
        r.indicator_code == code &&
        (r.observation_date.isSome && r.value_numeric.isSome))) ∧
    (get_indicator_series observations code).Sorted obsLe ∧
    ((∀ r ∈ observations, r.indicator_code ≠ code) →
      get_indicator_series observations code = []) ∧
    (∀ r ∈ get_indicator_series observations code,
      r.indicator_code = code ∧ r.observation_date.isSome ∧
        r.value_numeric.isSome) := by
  refine ⟨series_perm observations code, series_sorted observations code, ?_, ?_⟩
  · intro habs
    have hfil : observations.filter (fun r =>
        r.indicator_code == code &&
        (r.observation_date.isSome && r.value_numeric.isSome)) = [] := by
      rw [List.filter_eq_nil_iff]
      intro a ha
      simp only [Bool.and_eq_true, beq_iff_eq, not_and]
      intro hc
      exact absurd hc (habs a ha)
    have hp := series_perm observations code
    rw [hfil] at hp
    exact List.Perm.eq_nil hp
  · intro r hr
    exact (mem_series.mp hr).2

/-- An observation row used in concrete examples. -/
def exObsRow (code : String) (d : Date) (v : Value) : ObsRow :=
  { record_type := "observation"
    indicator_code := code
    indicator := code
    category := ""
    observation_date := some d
    event_date := DateCell.missing
    value_numeric := some v
    year := some d.year }

/-- The three-row example table of the spec scenario: indicator X at
2020, 2021, 2022 with values 10, 20, 30. -/
def exObs : List ObsRow :=
  [exObsRow "X" ⟨2020, 1⟩ 10, exObsRow "X" ⟨2021, 1⟩ 20, exObsRow "X" ⟨2022, 1⟩ 30]

theorem C1_witness :
    get_indicator_series exObs "ZZZ" = [] ∧
    (get_indicator_series exObs "X").Sorted obsLe ∧
    ((exObsRow "X" ⟨2022, 1⟩ 30).indicator_code = "X" ∧
      (exObsRow "X" ⟨2022, 1⟩ 30).observation_date.isSome ∧
      (exObsRow "X" ⟨2022, 1⟩ 30).value_numeric.isSome) :=
  ⟨(C1_get_indicator_series_spec exObs "ZZZ").2.2.1 (by decide),
   (C1_get_indicator_series_spec exObs "X").2.1,
   (C1_get_indicator_series_spec exObs "X").2.2.2 _ (by decide)⟩

/-- C2: on a well-formed observation table, get_latest_value of a
non-empty series is the value_numeric of the series row with the maximum
observation_date, and of an empty series is absent. -/
theorem C2_get_latest_value_spec (observations : List ObsRow) (code : String)
    (hwf : WellFormed observations) :
    (get_indicator_series observations code = [] →
      get_latest_value observations code = none) ∧
    (∀ r ∈ get_indicator_series observations code,
      (∀ s ∈ get_indicator_series observations code,
        Date.le (seriesKey s) (seriesKey r)) →
      get_latest_value observations code = r.value_numeric) := by
  constructor
  · intro h
    unfold get_latest_value
    rw [h]
    rfl
  · intro r hr hmax
    have hne : get_indicator_series observations code ≠ [] :=
      List.ne_nil_of_mem hr
    set L := get_indicator_series observations code with hL
    have hlast : L.getLast? = some (L.getLast hne) :=
      List.getLast?_eq_getLast_of_ne_nil hne
    have hgl : get_latest_value observations code = (L.getLast hne).value_numeric := by
      unfold get_latest_value
      rw [← hL, hlast]
    set l := L.getLast hne with hl
    have hlmem : l ∈ L := List.getLast_mem hne
    have h1 : obsLe r l := sorted_le_getLast (series_sorted observations code) hne r hr
    have h2 : Date.le (seriesKey l) (seriesKey r) := hmax l hlmem
    have hkey : seriesKey r = seriesKey l := Date.le_antisymm h1 h2
    have hdate : r.observation_date = l.observation_date := by
      obtain ⟨dr, hdr⟩ := Option.isSome_iff_exists.mp (mem_series.mp hr).2.2.1
      obtain ⟨dl, hdl⟩ := Option.isSome_iff_exists.mp (mem_series.mp hlmem).2.2.1
      rw [hdr, hdl]
      have : dr = dl := by
        have := hkey
        unfold seriesKey at this
        rw [hdr, hdl] at this
        simpa using this
      rw [this]
    have hcode : r.indicator_code = l.indicator_code := by
      rw [(mem_series.mp hr).2.1, (mem_series.mp hlmem).2.1]
    by_cases heq : r = l
    · rw [hgl, ← heq]
    · exfalso
      have hpair : L.Pairwise (fun a b =>
          ¬(a.indicator_code = b.indicator_code ∧
            a.observation_date = b.observation_date)) := by
        have hsub : (observations.filter (fun r =>
            r.indicator_code == code &&
            (r.observation_date.isSome && r.value_numeric.isSome))).Pairwise
            (fun a b =>
              ¬(a.indicator_code = b.indicator_code ∧
                a.observation_date = b.observation_date)) :=
          List.Pairwise.sublist (List.filter_sublist observations) hwf
        exact ((series_perm observations code).pairwise_iff
          (fun h => wellFormed_symm h)).mpr hsub
      exact (List.Pairwise.forall (fun _ _ h => wellFormed_symm h) hpair hr hlmem heq)
        ⟨hcode, hdate⟩

theorem C2_witness :
    WellFormed exObs ∧ get_latest_value exObs "X" = some 30 := by
  have hwf : WellFormed exObs := by
    unfold WellFormed
    decide
  refine ⟨hwf, ?_⟩
  exact (C2_get_latest_value_spec exObs "X" hwf).2 (exObsRow "X" ⟨2022, 1⟩ 30)
    (by decide) (by decide)

/-- C3: get_forecast_value is an exact-match lookup on the three keys —
an absent table gives absent, a table with no matching row gives absent,
and a table whose matching rows are exactly one row gives that row's
forecast_value; the function is total, so no input can make it raise. -/
theorem C3_get_forecast_value_spec (forecast_df : Option (List FRow))
    (ind : String) (yr : Int) (scen : String) :
    (forecast_df = none → get_forecast_value forecast_df ind yr scen = none) ∧
    (∀ df, forecast_df = some df →
      df.filter (fun r =>
          r.indicator_code == ind && r.year == yr && r.scenario == scen) = [] →
      get_forecast_value forecast_df ind yr scen = none) ∧
    (∀ df r, forecast_df = some df →
      df.filter (fun r =>
          r.indicator_code == ind && r.year == yr && r.scenario == scen) = [r] →
      get_forecast_value forecast_df ind yr scen = some r.forecast_value) := by
  refine ⟨fun h => by rw [h]; rfl, ?_, ?_⟩
  · intro df hdf hfil
    subst hdf
    by_cases hemp : df.isEmpty
    · simp [get_forecast_value, hemp]
    · simp [get_forecast_value, hemp, hfil]
  · intro df r hdf hfil
    subst hdf
    have hemp : df.isEmpty = false := by
      cases df with
      | nil => simp at hfil
      | cons x xs => rfl
    simp [get_forecast_value, hemp, hfil]

/-- The one-row forecast table used in concrete examples. -/
def exFL : List FRow := [⟨"ACC_OWNERSHIP", 2027, "base", 48⟩]

theorem C3_witness :
    get_forecast_value (some exFL) "ACC_OWNERSHIP" 2027 "base" = some 48 ∧
    get_forecast_value (some exFL) "ACC_OWNERSHIP" 2026 "base" = none ∧
    get_forecast_value none "ACC_OWNERSHIP" 2027 "base" = none :=
  ⟨(C3_get_forecast_value_spec (some exFL) "ACC_OWNERSHIP" 2027 "base").2.2
      exFL ⟨"ACC_OWNERSHIP", 2027, "base", 48⟩ rfl (by decide),
   (C3_get_forecast_value_spec (some exFL) "ACC_OWNERSHIP" 2026 "base").2.1
      exFL rfl (by decide),
   (C3_get_forecast_value_spec none "ACC_OWNERSHIP" 2027 "base").1 rfl⟩

/-- Row correspondence produced by get_events: all non-date fields are
preserved; the date columns depend on the global date-column flag. -/
def eventRowRel (flag : Bool) (e : EventRow) (r : URow) : Prop :=
  e.record_type = r.record_type ∧ e.indicator_code = r.indicator_code ∧
  e.indicator = r.indicator ∧ e.category = r.category ∧
  e.value_numeric = r.value_numeric ∧
  e.observation_date = r.observation_date ∧
  e.event_date = (if flag then cellOfParsed (parseCell r.event_date) else r.event_date) ∧
  e.event_date_parsed = (if flag then parseCell r.event_date else r.observation_date)

theorem forall₂_map_left_self {α β : Type} (R : β → α → Prop) (f : α → β) :
    ∀ (l : List α), (∀ a ∈ l, R (f a) a) → List.Forall₂ R (l.map f) l := by
  intro l h
  induction l with
  | nil => exact List.Forall₂.nil
  | cons a l ih =>
      exact List.Forall₂.cons (h a (List.mem_cons_self a l))
        (ih (fun x hx => h x (List.mem_cons_of_mem a hx)))

theorem get_events_spec (df : List URow) :
    List.Forall₂ (eventRowRel (eventsDateFlag df)) (get_events df) (eventsOf df) := by
  unfold get_events
  by_cases hemp : df.isEmpty
  · rw [if_pos hemp]
    have : df = [] := List.isEmpty_iff.mp hemp
    subst this
    exact List.Forall₂.nil
  · rw [if_neg hemp]
    by_cases hflag : eventsDateFlag df
    · rw [if_pos hflag]
      apply forall₂_map_left_self
      intro r _
      refine ⟨rfl, rfl, rfl, rfl, rfl, rfl, ?_, ?_⟩
      · rw [if_pos hflag]
      · rw [if_pos hflag]
    · rw [if_neg hflag]
      apply forall₂_map_left_self
      intro r _
      refine ⟨rfl, rfl, rfl, rfl, rfl, rfl, ?_, ?_⟩
      · rw [if_neg hflag]
      · rw [if_neg hflag]

theorem get_observations_map_toURow (df : List URow) :
    (get_observations df).map (fun r => r.toURow) =
      df.filter (fun r => r.record_type == "observation") := by
  by_cases hemp : df.isEmpty
  · rw [List.isEmpty_iff.mp hemp]
    rfl
  · unfold get_observations
    rw [if_neg hemp, List.map_map]
    exact List.map_id' _

theorem mem_eventsOf_record_type {df : List URow} {r : URow}
    (hr : r ∈ eventsOf df) : r.record_type = "event" := by
  unfold eventsOf at hr
  have := (List.mem_filter.mp hr).2
  simpa [beq_iff_eq] using this

theorem get_events_record_type (df : List URow) :
    ∀ e ∈ get_events df, e.record_type = "event" := by
  intro e he
  unfold get_events at he
  by_cases hemp : df.isEmpty
  · rw [if_pos hemp] at he
    cases he
  · rw [if_neg hemp] at he
    by_cases hflag : eventsDateFlag df
    · rw [if_pos hflag] at he
      obtain ⟨r, hr, hre⟩ := List.mem_map.mp he
      rw [← hre]
      show r.record_type = "event"
      exact mem_eventsOf_record_type hr
    · rw [if_neg hflag] at he
      obtain ⟨r, hr, hre⟩ := List.mem_map.mp he
      rw [← hre]
      show r.record_type = "event"
      exact mem_eventsOf_record_type hr

theorem get_events_length (df : List URow) :
    (get_events df).length = (eventsOf df).length := by
  unfold get_events
  by_cases hemp : df.isEmpty
  · rw [if_pos hemp]
    rw [List.isEmpty_iff.mp hemp]
    rfl
  · rw [if_neg hemp]
    by_cases hflag : eventsDateFlag df
    · rw [if_pos hflag, List.length_map]
    · rw [if_neg hflag, List.length_map]

theorem record_partition_length (df : List URow) :
    (df.filter (fun r => r.record_type == "observation")).length +
      (df.filter (fun r => r.record_type == "event")).length +
      (df.filter (fun r =>
        !(r.record_type == "observation") && !(r.record_type == "event"))).length =
    df.length := by
  induction df with
  | nil => rfl
  | cons x xs ih =>
    by_cases h1 : x.record_type == "observation"
    · have h2 : (x.record_type == "event") = false := by
        rw [beq_iff_eq] at h1
        rw [beq_eq_false_iff_ne, h1]
        decide
      simp [List.filter_cons, h1, h2]
      omega
    · by_cases h2 : x.record_type == "event" <;>
        simp [List.filter_cons, h1, h2] <;> omega

/-- C4: get_observations and get_events partition the unified table by
record_type — the observation result is exactly the rows whose
record_type is observation, the event result corresponds one-to-one (via
eventRowRel, preserving all non-date fields) to the rows whose
record_type is event, each result only holds rows of its own record_type
(so the two are disjoint), and the observation count plus the event count
plus the count of rows of any other record_type equals the table length,
accounting for every row exactly once. -/
theorem C4_partition (df : List URow) :
    (get_observations df).map (fun r => r.toURow) =
        df.filter (fun r => r.record_type == "observation") ∧
    (∀ r ∈ get_observations df, r.record_type = "observation") ∧
    (∀ e ∈ get_events df, e.record_type = "event") ∧
    List.Forall₂ (eventRowRel (eventsDateFlag df)) (get_events df) (eventsOf df) ∧
    (get_observations df).length + (get_events df).length +
        (df.filter (fun r =>
          !(r.record_type == "observation") && !(r.record_type == "event"))).length =
      df.length := by
  refine ⟨get_observations_map_toURow df, ?_, get_events_record_type df,
    get_events_spec df, ?_⟩
  · intro r hr
    have hm : r.toURow ∈ (get_observations df).map (fun r => r.toURow) :=
      List.mem_map_of_mem _ hr
    rw [get_observations_map_toURow df] at hm
    have := (List.mem_filter.mp hm).2
    simpa [beq_iff_eq] using this
  · have hobs : (get_observations df).length =
        (df.filter (fun r => r.record_type == "observation")).length := by
      have := congrArg List.length (get_observations_map_toURow df)
      rwa [List.length_map] at this
    have hev : (get_events df).length =
        (df.filter (fun r => r.record_type == "event")).length := by
      rw [get_events_length df]
      rfl
    rw [hobs, hev]
    exact record_partition_length df

/-- A unified-table row with the given record_type, used in examples. -/
def exU (t : String) : URow :=
  { record_type := t
    indicator_code := "X"
    indicator := "X"
    category := "c"
    observation_date := some ⟨2020, 1⟩
    event_date := DateCell.missing
    value_numeric := some 10 }

/-- A three-row unified table with one row of each record_type. -/
def exDF4 : List URow := [exU "observation", exU "event", exU "impact_link"]

theorem C4_witness :
    (get_observations exDF4).map (fun r => r.toURow) =
        exDF4.filter (fun r => r.record_type == "observation") ∧
    ({ toURow := exU "observation", year := some 2020 } : ObsRow).record_type =
        "observation" ∧
    ({ toURow := exU "event", event_date_parsed := some ⟨2020, 1⟩ } : EventRow).record_type =
        "event" ∧
    (get_observations exDF4).length + (get_events exDF4).length +
        (exDF4.filter (fun r =>
          !(r.record_type == "observation") && !(r.record_type == "event"))).length =
      exDF4.length :=
  ⟨(C4_partition exDF4).1,
   (C4_partition exDF4).2.1 _ (by decide),
   (C4_partition exDF4).2.2.1 _ (by decide),
   (C4_partition exDF4).2.2.2.2⟩

/-- The per-row date rule asserted by the claim for C6: use the parsed
event_date when the row has a non-missing event_date, else fall back to
the parsed observation_date. -/
def claimedEventDate (r : URow) : Option Date :=
  if r.event_date ≠ DateCell.missing then parseCell r.event_date
  else r.observation_date

/-- An event row carrying its own event_date. -/
def exEv1 : URow :=
  { record_type := "event"
    indicator_code := "EV1"
    indicator := "Telebirr launch"
    category := "product"
    observation_date := some ⟨2020, 1⟩
    event_date := DateCell.valid ⟨2021, 5⟩
    value_numeric := none }

/-- An event row with a missing event_date but a present observation_date. -/
def exEv2 : URow :=
  { record_type := "event"
    indicator_code := "EV2"
    indicator := "M-Pesa entry"
    category := "product"
    observation_date := some ⟨2019, 3⟩
    event_date := DateCell.missing
    value_numeric := none }

/-- A unified table on which the per-row fallback rule and the code
disagree: the first event row has an event_date, the second does not. -/
def exDF6 : List URow := [exEv1, exEv2]

/-- C6 counterexample: on exDF6 the code picks the event_date column for
every row because one row has an event_date, so the second row gets a
missing event_date_parsed — but the per-row rule of the claim gives it
the parsed observation_date. -/
theorem C6_counterexample :
    (get_events exDF6).map (fun e => e.event_date_parsed) =
        [some ⟨2021, 5⟩, none] ∧
    exDF6.map claimedEventDate = [some ⟨2021, 5⟩, some ⟨2019, 3⟩] ∧
    (get_events exDF6).map (fun e => e.event_date_parsed) ≠
      exDF6.map claimedEventDate := by
  refine ⟨by decide, by decide, by decide⟩

/-- C6 amended: the date column is chosen globally, not per row — when
any event row has a non-missing event_date, every event row derives
event_date_parsed from its own (possibly missing or unparseable)
event_date; otherwise every event row derives it from its parsed
observation_date.  A value that fails to parse yields a missing
event_date_parsed rather than an error. -/
theorem C6_event_date_parsed_global (df : List URow) :
    List.Forall₂ (fun (e : EventRow) (r : URow) =>
        e.event_date_parsed =
          (if eventsDateFlag df then parseCell r.event_date
           else r.observation_date))
      (get_events df) (eventsOf df) :=
  List.Forall₂.imp (fun _ _ hrel => hrel.2.2.2.2.2.2.2) (get_events_spec df)

/-- A unified table whose single event row has an unparseable event_date. -/
def exDF7 : List URow :=
  [{ record_type := "event"
     indicator_code := "EV1"
     indicator := "Telebirr launch"
     category := "product"
     observation_date := some ⟨2020, 1⟩
     event_date := DateCell.unparseable "13/45/2021"
     value_numeric := none }]

/-- C7 counterexample: get_events does modify row data — it overwrites
the chosen date column with its parsed values, so an unparseable
event_date cell comes out missing and the result row (projected back to
the unified schema) is not the input row. -/
theorem C7_counterexample :
    (get_events exDF7).map (fun e => e.event_date) = [DateCell.missing] ∧
    exDF7.map (fun r => r.event_date) = [DateCell.unparseable "13/45/2021"] ∧
    (get_events exDF7).map (fun e => e.toURow) ≠
      exDF7.filter (fun r => r.record_type == "event") := by
  refine ⟨by decide, by decide, by decide⟩

/-- C7 amended: both extractors are pure (the input is a value that the
call cannot change) and filter by record_type; get_observations returns
exactly the matching rows (plus a derived year column), while get_events
returns the matching rows with every non-date field unchanged and the
chosen date column replaced by its parsed value (recorded by
eventRowRel, which also fixes event_date_parsed). -/
theorem C7_pure_filters (df : List URow) :
    (get_observations df).map (fun r => r.toURow) =
        df.filter (fun r => r.record_type == "observation") ∧
    List.Forall₂ (eventRowRel (eventsDateFlag df)) (get_events df)
      (df.filter (fun r => r.record_type == "event")) :=
  ⟨get_observations_map_toURow df, get_events_spec df⟩

/-- C5: every load operation is total (so no exception can escape it) and
converts every failure condition into an empty/absent placeholder plus a
non-fatal user-visible message: each failure mode of each loader is
enumerated with its placeholder result and message kind, and each success
mode returns the file content with no message. -/
theorem C5_loaders_fail_soft (env : Env) :
    (∀ rows, env.enriched = FileState.ok rows →
      load_unified_data env =
        ((rows.map parseURow,
          rows.filter (fun r => r.record_type == "impact_link")), [])) ∧
    (env.enriched = FileState.malformed →
      load_unified_data env =
        (([], []), [Msg.error "Error loading unified data"])) ∧
    (∀ rows irows, env.enriched = FileState.absentF →
      env.excelMain = FileState.ok rows → env.excelImpact = FileState.ok irows →
      load_unified_data env = ((rows.map parseURow, irows), [])) ∧
    (∀ rows, env.enriched = FileState.absentF →
      env.excelMain = FileState.ok rows →
      (env.excelImpact = FileState.absentF ∨ env.excelImpact = FileState.malformed) →
      load_unified_data env = ((rows.map parseURow, []), [])) ∧
    (env.enriched = FileState.absentF →
      (env.excelMain = FileState.absentF ∨ env.excelMain = FileState.malformed) →
      load_unified_data env =
        (([], []), [Msg.error "Error loading unified data"])) ∧
    (env.eventFeatures = FileState.absentF →
      load_event_features env =
        (none, [Msg.warning "Event features not found. Run Task 3 notebook first."])) ∧
    (env.eventFeatures = FileState.malformed →
      load_event_features env = (none, [Msg.error "Error loading event features"])) ∧
    (∀ t, env.eventFeatures = FileState.ok t →
      load_event_features env = (some t, [])) ∧
    (env.eventMatrix = FileState.absentF →
      load_event_matrix env =
        (none, [Msg.warning "Event matrix not found. Run Task 3 notebook first."])) ∧
    (env.eventMatrix = FileState.malformed →
      load_event_matrix env = (none, [Msg.error "Error loading event matrix"])) ∧
    (∀ t, env.eventMatrix = FileState.ok t →
      load_event_matrix env = (some t, [])) ∧
    (env.forecastLong = FileState.absentF →
      load_forecasts env =
        ((none, none), [Msg.warning "Forecast data not found. Run Task 4 notebook first."])) ∧
    (env.forecastLong = FileState.malformed →
      load_forecasts env = ((none, none), [Msg.error "Error loading forecasts"])) ∧
    (∀ long, env.forecastLong = FileState.ok long →
      env.forecastWide = FileState.absentF →
      load_forecasts env = ((some long, none), [])) ∧
    (∀ long, env.forecastLong = FileState.ok long →
      env.forecastWide = FileState.malformed →
      load_forecasts env = ((none, none), [Msg.error "Error loading forecasts"])) ∧
    (∀ long wide, env.forecastLong = FileState.ok long →
      env.forecastWide = FileState.ok wide →
      load_forecasts env = ((some long, some wide), [])) ∧
    ((load_event_features env).1 = none → (load_event_features env).2 ≠ []) ∧
    ((load_event_matrix env).1 = none → (load_event_matrix env).2 ≠ []) ∧
    ((load_forecasts env).1.1 = none → (load_forecasts env).2 ≠ []) := by
  refine ⟨?_, ?_, ?_, ?_, ?_, ?_, ?_, ?_, ?_, ?_, ?_, ?_, ?_, ?_, ?_, ?_, ?_, ?_, ?_⟩
  · intro rows h
    simp [load_unified_data, h]
  · intro h
    simp [load_unified_data, h]
  · intro rows irows h1 h2 h3
    simp [load_unified_data, h1, h2, h3]
  · intro rows h1 h2 h3
    rcases h3 with h3 | h3 <;> simp [load_unified_data, h1, h2, h3]
  · intro h1 h2
    rcases h2 with h2 | h2 <;> simp [load_unified_data, h1, h2]
  · intro h
    simp [load_event_features, h]
  · intro h
    simp [load_event_features, h]
  · intro t h
    simp [load_event_features, h]
  · intro h
    simp [load_event_matrix, h]
  · intro h
    simp [load_event_matrix, h]
  · intro t h
    simp [load_event_matrix, h]
  · intro h
    simp [load_forecasts, h]
  · intro h
    simp [load_forecasts, h]
  · intro long h1 h2
    simp [load_forecasts, h1, h2]
  · intro long h1 h2
    simp [load_forecasts, h1, h2]
  · intro long wide h1 h2
    simp [load_forecasts, h1, h2]
  · intro h
    unfold load_event_features at *
    cases hf : env.eventFeatures <;> simp [hf] at h ⊢
  · intro h
    unfold load_event_matrix at *
    cases hf : env.eventMatrix <;> simp [hf] at h ⊢
  · intro h
    unfold load_forecasts at *
    cases hf : env.forecastLong <;> simp [hf] at h ⊢
    cases hw : env.forecastWide <;> simp [hw] at h ⊢

/-- The environment used by the C5 witness: a malformed enriched file, a
missing features file, a readable matrix file, a readable long forecast
and a malformed wide forecast. -/
def exEnv : Env :=
  { enriched := FileState.malformed
    excelMain := FileState.absentF
    excelImpact := FileState.absentF
    eventFeatures := FileState.absentF
    eventMatrix := FileState.ok []
    forecastLong := FileState.ok exFL
    forecastWide := FileState.malformed }

theorem C5_witness :
    load_unified_data exEnv = (([], []), [Msg.error "Error loading unified data"]) ∧
    load_event_features exEnv =
      (none, [Msg.warning "Event features not found. Run Task 3 notebook first."]) ∧
    load_event_matrix exEnv = (some [], []) ∧
    load_forecasts exEnv = ((none, none), [Msg.error "Error loading forecasts"]) ∧
    (load_forecasts exEnv).2 ≠ [] :=
  ⟨(C5_loaders_fail_soft exEnv).2.1 rfl,
   (C5_loaders_fail_soft exEnv).2.2.2.2.2.1 rfl,
   (C5_loaders_fail_soft exEnv).2.2.2.2.2.2.2.2.2.2.1 [] rfl,
   (C5_loaders_fail_soft exEnv).2.2.2.2.2.2.2.2.2.2.2.2.2.2.1 exFL rfl rfl,
   (C5_loaders_fail_soft exEnv).2.2.2.2.2.2.2.2.2.2.2.2.2.2.2.2.2.2 (by decide)⟩

theorem scenarioTraces_no_band (fdata : List FRow) :
    (scenarioTraces fdata).filter (fun t => t.isBand) = [] := by
  rw [List.filter_eq_nil_iff]
  intro t ht
  obtain ⟨scen, _, hf⟩ := List.mem_filterMap.mp ht
  dsimp only [scenarioTraces] at hf
  by_cases hemp : (sortFRows (fdata.filter (fun r => r.scenario == scen))).isEmpty
  · rw [if_pos hemp] at hf
    cases hf
  · rw [if_neg hemp] at hf
    cases hf
    simp

theorem forecastPageTraces_no_band (observations : List ObsRow) (fl : List FRow) :
    (forecastPageTraces observations fl none).filter (fun t => t.isBand) = [] := by
  unfold forecastPageTraces
  cases hhead : (uniqueStrs (fl.map (fun r => r.indicator_code))).head? with
  | none => rfl
  | some ind =>
      have hband : bandTraces ind none = [] := rfl
      have hhist : ((if (get_indicator_series observations ind).isEmpty then []
          else [histTraceOf (get_indicator_series observations ind)]).filter
            (fun t => t.isBand)) = [] := by
        by_cases hh : (get_indicator_series observations ind).isEmpty
        · rw [if_pos hh]
          rfl
        · rw [if_neg hh]
          simp [histTraceOf]
      simp only [List.filter_append, hband, hhist, scenarioTraces_no_band]
      rfl

/-- The two-row base-scenario long forecast table of the spec scenario. -/
def exLong8 : List FRow :=
  [⟨"X", 2025, "base", 40⟩, ⟨"X", 2026, "base", 45⟩]

/-- C8: with a present long table and an absent wide table the Forecasts
page renders without error and draws no uncertainty-band trace; in
particular with the two X base rows it draws the base scenario trace with
values 40 and 45 and shows the long table as the data table. -/
theorem C8_no_band_without_wide (observations : List ObsRow) (fl : List FRow)
    (scen : String) :
    (render_forecasts observations (some fl) none scen).errorShown = false ∧
    (render_forecasts observations (some fl) none scen).traces.filter
        (fun t => t.isBand) = [] ∧
    ({ name := "Base"
       xs := [some (yearDate 2025), some (yearDate 2026)]
       ys := [some 40, some 45]
       isBand := false } : ChartTrace) ∈
      (render_forecasts observations (some exLong8) none scen).traces ∧
    (render_forecasts observations (some exLong8) none scen).table =
      TableShown.longT exLong8 := by
  refine ⟨rfl, forecastPageTraces_no_band observations fl, ?_, rfl⟩
  have hsc : scenarioTraces (exLong8.filter (fun r => r.indicator_code == "X")) =
      [{ name := "Base"
         xs := [some (yearDate 2025), some (yearDate 2026)]
         ys := [some 40, some 45]
         isBand := false }] := by decide
  show _ ∈ forecastPageTraces observations exLong8 none
  unfold forecastPageTraces
  have hhead : (uniqueStrs (exLong8.map (fun r => r.indicator_code))).head? =
      some "X" := by decide
  rw [hhead]
  simp [List.mem_append, hsc]

/-- C9: the sidebar scenario filter is applied on only some pages — on
the Overview page every rendered component except the forecast trace is
identical across any two filter values, the forecast trace is built
solely from long-form rows whose scenario equals the selected filter
value, and the Forecasts page render is completely independent of the
filter (it always draws all three scenario lines). -/
theorem C9_scenario_filter_scope (observations : List ObsRow)
    (events : List EventRow) (fl : Option (List FRow))
    (fw : Option (List WRow)) (s1 s2 : String) :
    ((render_overview observations events fl fw s1).kpiAccess =
      (render_overview observations events fl fw s2).kpiAccess) ∧
    ((render_overview observations events fl fw s1).kpiMM =
      (render_overview observations events fl fw s2).kpiMM) ∧
    ((render_overview observations events fl fw s1).kpiUsage =
      (render_overview observations events fl fw s2).kpiUsage) ∧
    ((render_overview observations events fl fw s1).kpiForecast =
      (render_overview observations events fl fw s2).kpiForecast) ∧
    ((render_overview observations events fl fw s1).insightCurrent =
      (render_overview observations events fl fw s2).insightCurrent) ∧
    ((render_overview observations events fl fw s1).insightOutlook =
      (render_overview observations events fl fw s2).insightOutlook) ∧
    ((render_overview observations events fl fw s1).histTrace =
      (render_overview observations events fl fw s2).histTrace) ∧
    ((render_overview observations events fl fw s1).forecastTrace =
      overviewForecastTrace observations fl s1) ∧
    (∀ tr, (render_overview observations events fl fw s1).forecastTrace = some tr →
      ∀ v ∈ tr.ys, ∃ r, r ∈ fl.getD [] ∧ r.scenario = s1 ∧
        r.indicator_code = "ACC_OWNERSHIP" ∧ v = some r.forecast_value) ∧
    render_forecasts observations fl fw s1 =
      render_forecasts observations fl fw s2 := by
  refine ⟨rfl, rfl, rfl, rfl, rfl, rfl, rfl, rfl, ?_, ?_⟩
  · intro tr htr v hv
    have htr2 : overviewForecastTrace observations fl s1 = some tr := htr
    unfold overviewForecastTrace at htr2
    by_cases hemp : observations.isEmpty
    · rw [if_pos hemp] at htr2
      exact Option.noConfusion htr2
    · rw [if_neg hemp] at htr2
      cases fl with
      | none => exact Option.noConfusion htr2
      | some l =>
          dsimp only at htr2
          by_cases hfa : (sortFRows (l.filter (fun r =>
              r.indicator_code == "ACC_OWNERSHIP" && r.scenario == s1))).isEmpty
          · rw [if_pos hfa] at htr2
            exact Option.noConfusion htr2
          · rw [if_neg hfa] at htr2
            cases htr2
            obtain ⟨r, hr, hvr⟩ := List.mem_map.mp hv
            have hrl : r ∈ l.filter (fun r =>
                r.indicator_code == "ACC_OWNERSHIP" && r.scenario == s1) := by
              have := (List.mem_insertionSort fRowLe (l := l.filter (fun r =>
                r.indicator_code == "ACC_OWNERSHIP" && r.scenario == s1))).mp hr
              exact this
            have hprops := (List.mem_filter.mp hrl).2
            rw [Bool.and_eq_true, beq_iff_eq, beq_iff_eq] at hprops
            exact ⟨r, (List.mem_filter.mp hrl).1, hprops.2, hprops.1, hvr.symm⟩
  · cases fl with
    | none => rfl
    | some l => rfl

theorem C9_witness :
    (∃ r, r ∈ exFL ∧ r.scenario = "base" ∧ r.indicator_code = "ACC_OWNERSHIP" ∧
      (some 48 : Option Value) = some r.forecast_value) ∧
    render_forecasts exObs (some exFL) none "base" =
      render_forecasts exObs (some exFL) none "pessimistic" :=
  ⟨(C9_scenario_filter_scope exObs [] (some exFL) none "base" "pessimistic").2.2.2.2.2.2.2.2.1
      { name := "Forecast (base)"
        xs := [some ⟨2027, 1⟩]
        ys := [some 48]
        isBand := false }
      (by decide) (some 48) (by decide),
   (C9_scenario_filter_scope exObs [] (some exFL) none "base" "pessimistic").2.2.2.2.2.2.2.2.2⟩

/-- C10: because presence is tested by numeric truthiness, a looked-up
value of exactly 0 renders identically to an absent value on both pages —
each KPI card shows N/A, the conditional insight lines are dropped, and
the key-findings lines for a zero forecast are omitted. -/
theorem C10_zero_renders_as_absent (observations : List ObsRow)
    (events : List EventRow) (fl : Option (List FRow))
    (fw : Option (List WRow)) (s : String) :
    (∀ label, kpiCard label (some 0) = kpiCard label none) ∧
    kpiForecastCard (some 0) = kpiForecastCard none ∧
    (∀ mm n, insightCurrentLines (some 0) mm n = insightCurrentLines none mm n) ∧
    (∀ la n, insightCurrentLines la (some 0) n = insightCurrentLines la none n) ∧
    (∀ fw2, insightOutlookLines (some 0) fw2 = insightOutlookLines none fw2) ∧
    findingsAccessBlock (some 0) = findingsAccessBlock none ∧
    findingsUsageBlock (some 0) = findingsUsageBlock none ∧
    (get_latest_value observations "ACC_OWNERSHIP" = some 0 →
      (render_overview observations events fl fw s).kpiAccess =
        MetricOut.na "Latest Account Ownership") ∧
    (get_forecast_value fl "ACC_OWNERSHIP" 2027 "base" = some 0 →
      (render_overview observations events fl fw s).kpiForecast =
        MetricOut.na "2027 Forecast" ∧
      (∀ l, fl = some l →
        (render_forecasts observations fl fw s).findings =
          findingsUsageBlock
              (get_forecast_value fl "USG_DIGITAL_PAYMENT" 2027 "base") ++
            staticFindingsLines)) := by
  refine ⟨fun _ => rfl, rfl, fun _ _ => ?_, fun la n => ?_, fun _ => rfl, rfl, rfl,
    ?_, ?_⟩
  · rfl
  · unfold insightCurrentLines
    have h0 : pyTruthy (some 0) = false := rfl
    have h1 : pyTruthy none = false := rfl
    rw [h0, h1, Bool.and_false]
    rfl
  · intro h
    show kpiCard "Latest Account Ownership"
        (get_latest_value observations "ACC_OWNERSHIP") = _
    rw [h]
    rfl
  · intro h
    constructor
    · show kpiForecastCard
          (get_forecast_value fl "ACC_OWNERSHIP" 2027 "base") = _
      rw [h]
      rfl
    · intro l hl
      subst hl
      show findingsAccessBlock
            (get_forecast_value (some l) "ACC_OWNERSHIP" 2027 "base") ++
          findingsUsageBlock
            (get_forecast_value (some l) "USG_DIGITAL_PAYMENT" 2027 "base") ++
          staticFindingsLines = _
      rw [h]
      rfl

/-- An observation table whose latest ACC_OWNERSHIP value is exactly 0. -/
def exObs0 : List ObsRow := [exObsRow "ACC_OWNERSHIP" ⟨2021, 1⟩ 0]

/-- A long forecast table whose 2027 base ACC_OWNERSHIP value is 0. -/
def exFL0 : List FRow := [⟨"ACC_OWNERSHIP", 2027, "base", 0⟩]

theorem C10_witness :
    get_latest_value exObs0 "ACC_OWNERSHIP" = some 0 ∧
    (render_overview exObs0 [] (some exFL0) none "base").kpiAccess =
      MetricOut.na "Latest Account Ownership" ∧
    (render_overview exObs0 [] (some exFL0) none "base").kpiForecast =
      MetricOut.na "2027 Forecast" ∧
    (render_forecasts exObs0 (some exFL0) none "base").findings =
      findingsUsageBlock
          (get_forecast_value (some exFL0) "USG_DIGITAL_PAYMENT" 2027 "base") ++
        staticFindingsLines :=
  ⟨by decide,
   (C10_zero_renders_as_absent exObs0 [] (some exFL0) none "base").2.2.2.2.2.2.2.1
     (by decide),
   ((C10_zero_renders_as_absent exObs0 [] (some exFL0) none "base").2.2.2.2.2.2.2.2
     (by decide)).1,
   ((C10_zero_renders_as_absent exObs0 [] (some exFL0) none "base").2.2.2.2.2.2.2.2
     (by decide)).2 exFL0 rfl⟩
